import Mathlib

/-
Shallow embedding of the simplevm launcher (src/main.rs of isaacd9/vagrantx).

The program loads a JSON configuration, checks the hypervisor capability,
builds device configurations (entropy, memory balloon, network, boot loader,
block storage, console), validates the assembled configuration, creates the
VM, submits an asynchronous start, and idles forever.

External effects (file system canonicalization, disk-image attachment
construction, the hypervisor capability check, the opaque validator, the
asynchronous start result, and the terminal attribute read) are modelled as
an environment record.  Control flow and data flow are translated directly
from the source; the execution of main is modelled as a trace of events plus
a final outcome (clean return, panic, or the indefinite idle loop).
-/

set_option autoImplicit false

namespace SimpleVm

/-- A file-system path (Rust PathBuf / Path), as a plain string. -/
structure Path where
  s : String
deriving DecidableEq

/-- A platform/framework error object (NSError); only its identity matters. -/
structure NSError where
  code : Nat
deriving DecidableEq

/-- Terminal attributes (struct termios), restricted to the two flag words the
program touches.  tcflag_t is a 64-bit unsigned integer on the target
platform; flag words are naturals masked within 64 bits by the operations. -/
structure Termios where
  c_iflag : Nat
  c_lflag : Nat
deriving DecidableEq

/-- libc ICRNL flag (map CR to NL on input), value 0x100 on the target. -/
def ICRNL : Nat := 0x100

/-- libc ICANON flag (canonical input), value 0x100 on the target. -/
def ICANON : Nat := 0x100

/-- libc ECHO flag (local echo), value 0x8 on the target. -/
def ECHO : Nat := 0x8

/-- Bitwise complement within a 64-bit flag word (Rust `!flag` on u64). -/
def flagNot (m : Nat) : Nat := (2 ^ 64 - 1) ^^^ m

/-- The attribute modification performed by build_console_configuration:
`c_iflag &= !ICRNL; c_lflag &= !(ICANON | ECHO)` (src/main.rs lines 90-91). -/
def modifyAttributes (t : Termios) : Termios :=
  { c_iflag := t.c_iflag &&& flagNot ICRNL
    c_lflag := t.c_lflag &&& flagNot (ICANON ||| ECHO) }

/-- A JSON document, as handed to serde_json (numbers restricted to integers,
which is all the Config schema accepts). -/
inductive Json where
  | null
  | bool (b : Bool)
  | num (n : Int)
  | str (s : String)
  | arr (xs : List Json)
  | obj (fields : List (String × Json))

/-- The Boot section of the configuration (src/main.rs lines 51-62). -/
structure Boot where
  kernel : Path
  initrd : Path
  command_line : String
  disks : List Path
deriving DecidableEq

/-- The configuration (src/main.rs lines 64-77). -/
structure Config where
  boot : Boot
  cpu_count : Nat
  additional_disks : List Path
  memory_size : Nat
deriving DecidableEq

/-- serde default for cpu_count (src/main.rs lines 43-45). -/
def default_cpu : Nat := 2

/-- serde default for memory_size (src/main.rs lines 47-49). -/
def default_mem_size : Nat := 2147483648

/-- Deserialize a PathBuf field: serde accepts a JSON string. -/
def parsePathJson : Json → Except String Path
  | Json.str s => Except.ok { s := s }
  | _ => Except.error "invalid type: expected path string"

/-- Deserialize a String field. -/
def parseStringJson : Json → Except String String
  | Json.str s => Except.ok s
  | _ => Except.error "invalid type: expected string"

/-- Deserialize each element of a JSON array as a path. -/
def parsePathList : List Json → Except String (List Path)
  | [] => Except.ok []
  | j :: rest =>
    match parsePathJson j with
    | Except.error e => Except.error e
    | Except.ok p =>
      match parsePathList rest with
      | Except.error e => Except.error e
      | Except.ok ps => Except.ok (p :: ps)

/-- Deserialize a Vec of PathBuf: serde accepts a JSON array of strings. -/
def parsePathListJson : Json → Except String (List Path)
  | Json.arr xs => parsePathList xs
  | _ => Except.error "invalid type: expected array of paths"

/-- Deserialize a usize field: serde accepts a non-negative JSON integer. -/
def parseNatJson : Json → Except String Nat
  | Json.num n => if n < 0 then Except.error "invalid value: negative integer" else Except.ok n.toNat
  | _ => Except.error "invalid type: expected unsigned integer"

/-- Accumulator for the serde map visitor of Boot: each field is optional
until the whole map has been traversed. -/
structure BootAcc where
  kernel : Option Path := none
  initrd : Option Path := none
  command_line : Option String := none
  disks : Option (List Path) := none

/-- The recognized keys of the Boot struct. -/
def isKnownBootKey (k : String) : Bool :=
  decide (k = "kernel" ∨ k = "initrd" ∨ k = "command_line" ∨ k = "disks")

/-- Process one map entry while deserializing Boot.  Unknown keys are
rejected (serde deny_unknown_fields, src/main.rs line 52), duplicate keys are
rejected, and values are deserialized according to the field type. -/
def applyBootField (k : String) (v : Json) (acc : BootAcc) : Except String BootAcc :=
  if k = "kernel" then
    match acc.kernel with
    | some _ => Except.error "duplicate field kernel"
    | none =>
      match parsePathJson v with
      | Except.error e => Except.error e
      | Except.ok p => Except.ok { acc with kernel := some p }
  else if k = "initrd" then
    match acc.initrd with
    | some _ => Except.error "duplicate field initrd"
    | none =>
      match parsePathJson v with
      | Except.error e => Except.error e
      | Except.ok p => Except.ok { acc with initrd := some p }
  else if k = "command_line" then
    match acc.command_line with
    | some _ => Except.error "duplicate field command_line"
    | none =>
      match parseStringJson v with
      | Except.error e => Except.error e
      | Except.ok s => Except.ok { acc with command_line := some s }
  else if k = "disks" then
    match acc.disks with
    | some _ => Except.error "duplicate field disks"
    | none =>
      match parsePathListJson v with
      | Except.error e => Except.error e
      | Except.ok ps => Except.ok { acc with disks := some ps }
  else Except.error ("unknown field " ++ k)

/-- Traverse the map entries of a Boot object in document order. -/
def parseBootFields : List (String × Json) → BootAcc → Except String BootAcc
  | [], acc => Except.ok acc
  | (k, v) :: rest, acc =>
    match applyBootField k v acc with
    | Except.error e => Except.error e
    | Except.ok acc2 => parseBootFields rest acc2

/-- Deserialize Boot: kernel and initrd are required, command_line defaults
to the empty string, disks defaults to the empty list
(src/main.rs lines 51-62). -/
def parseBoot : Json → Except String Boot
  | Json.obj fields =>
    match parseBootFields fields {} with
    | Except.error e => Except.error e
    | Except.ok acc =>
      match acc.kernel with
      | none => Except.error "missing field kernel"
      | some kernel =>
        match acc.initrd with
        | none => Except.error "missing field initrd"
        | some initrd =>
          Except.ok
            { kernel := kernel
              initrd := initrd
              command_line := acc.command_line.getD ""
              disks := acc.disks.getD [] }
  | _ => Except.error "invalid type: expected a map"

/-- Accumulator for the serde map visitor of Config. -/
structure ConfigAcc where
  boot : Option Boot := none
  cpu_count : Option Nat := none
  additional_disks : Option (List Path) := none
  memory_size : Option Nat := none

/-- The recognized keys of the Config struct. -/
def isKnownConfigKey (k : String) : Bool :=
  decide (k = "boot" ∨ k = "cpu_count" ∨ k = "additional_disks" ∨ k = "memory_size")

/-- Process one map entry while deserializing Config.  Unknown keys are
rejected (serde deny_unknown_fields, src/main.rs line 65). -/
def applyConfigField (k : String) (v : Json) (acc : ConfigAcc) : Except String ConfigAcc :=
  if k = "boot" then
    match acc.boot with
    | some _ => Except.error "duplicate field boot"
    | none =>
      match parseBoot v with
      | Except.error e => Except.error e
      | Except.ok b => Except.ok { acc with boot := some b }
  else if k = "cpu_count" then
    match acc.cpu_count with
    | some _ => Except.error "duplicate field cpu_count"
    | none =>
      match parseNatJson v with
      | Except.error e => Except.error e
      | Except.ok n => Except.ok { acc with cpu_count := some n }
  else if k = "additional_disks" then
    match acc.additional_disks with
    | some _ => Except.error "duplicate field additional_disks"
    | none =>
      match parsePathListJson v with
      | Except.error e => Except.error e
      | Except.ok ps => Except.ok { acc with additional_disks := some ps }
  else if k = "memory_size" then
    match acc.memory_size with
    | some _ => Except.error "duplicate field memory_size"
    | none =>
      match parseNatJson v with
      | Except.error e => Except.error e
      | Except.ok n => Except.ok { acc with memory_size := some n }
  else Except.error ("unknown field " ++ k)

/-- Traverse the map entries of a Config object in document order. -/
def parseConfigFields : List (String × Json) → ConfigAcc → Except String ConfigAcc
  | [], acc => Except.ok acc
  | (k, v) :: rest, acc =>
    match applyConfigField k v acc with
    | Except.error e => Except.error e
    | Except.ok acc2 => parseConfigFields rest acc2

/-- Deserialize Config: boot is required, cpu_count defaults to default_cpu,
additional_disks defaults to empty, memory_size defaults to default_mem_size
(src/main.rs lines 64-77). -/
def parseConfig : Json → Except String Config
  | Json.obj fields =>
    match parseConfigFields fields {} with
    | Except.error e => Except.error e
    | Except.ok acc =>
      match acc.boot with
      | none => Except.error "missing field boot"
      | some b =>
        Except.ok
          { boot := b
            cpu_count := acc.cpu_count.getD default_cpu
            additional_disks := acc.additional_disks.getD []
            memory_size := acc.memory_size.getD default_mem_size }
  | _ => Except.error "invalid type: expected a map"

/-- load_config (src/main.rs lines 154-160): opens and reads the file, then
deserializes.  File reading and JSON text parsing are modelled by an
Option Json (none = unreadable file or malformed JSON text); serde
deserialization is parseConfig. -/
def load_config (configJson : Option Json) : Except String Config :=
  match configJson with
  | none => Except.error "could not open or read the config file"
  | some j => parseConfig j

/-- Whether an Except value is a success. -/
def isOkE {ε α : Type} : Except ε α → Bool
  | Except.ok _ => true
  | Except.error _ => false

/-- A disk-image storage device attachment (path already canonicalized;
read_only(false) per src/main.rs line 146). -/
structure Attachment where
  path : Path
  readOnly : Bool
deriving DecidableEq

/-- A virtio block device configuration wrapping its attachment. -/
structure BlockDevice where
  attachment : Attachment
deriving DecidableEq

/-- The possible results of build_block_devices: a returned Ok list, a
returned Err (from the attachment builder, propagated by the ? operator),
or a process panic (the unwrap on a failed canonicalize). -/
inductive BuildOutcome where
  | ok (devs : List BlockDevice)
  | err (e : NSError)
  | panic
deriving DecidableEq

/-- True exactly on a returned error. -/
def BuildOutcome.isErr : BuildOutcome → Bool
  | BuildOutcome.err _ => true
  | _ => false

/-- build_block_devices (src/main.rs lines 133-152).  For each disk path in
order: canonicalize (unwrap panics on failure), build the read-write
disk-image attachment (the ? operator returns the first error immediately),
wrap it into a block device, and collect the devices in order.

Environment: canon gives the canonicalize result for a path (none =
canonicalize fails); attachFail gives the attachment-builder result on a
canonicalized path (some e = builder fails with error e). -/
def build_block_devices (canon : Path → Option Path) (attachFail : Path → Option NSError) :
    List Path → BuildOutcome
  | [] => BuildOutcome.ok []
  | d :: rest =>
    match canon d with
    | none => BuildOutcome.panic
    | some cp =>
      match attachFail cp with
      | some e => BuildOutcome.err e
      | none =>
        match build_block_devices canon attachFail rest with
        | BuildOutcome.ok devs =>
            BuildOutcome.ok ({ attachment := { path := cp, readOnly := false } } :: devs)
        | BuildOutcome.err e => BuildOutcome.err e
        | BuildOutcome.panic => BuildOutcome.panic

/-- The boot loader descriptor (kernel URL, initrd URL, command line). -/
structure BootLoaderDescriptor where
  kernelUrl : Path
  initrdUrl : Path
  commandLine : String
deriving DecidableEq

/-- build_boot_loader (src/main.rs lines 109-131): canonicalize the kernel
path, then the initrd path (each unwrap panics on failure, modelled as
none), and pass the command line through verbatim. -/
def build_boot_loader (canon : Path → Option Path) (kernel initrd : Path) (cmd_line : String) :
    Option BootLoaderDescriptor :=
  match canon kernel with
  | none => none
  | some k =>
    match canon initrd with
    | none => none
    | some i => some { kernelUrl := k, initrdUrl := i, commandLine := cmd_line }

/-- Observable events of a run of main, in program order. -/
inductive Event where
  | readConfigFile
  | checkSupported (ok : Bool)
  | printNotSupported
  | createEntropy
  | createBalloon
  | createNetwork
  | buildBootLoaderEv
  | storageBuilt (n : Nat)
  | tcgetattrEv (ok : Bool)
  | tcsetattrEv
  | createConsole
  | assembleEv
  | validateEv (ok : Bool)
  | dumpError
  | createVM
  | startSubmit
  | callbackDump
deriving DecidableEq

/-- The console serial-port configuration; it records the attributes the
adapter applied to the terminal. -/
structure ConsoleConfig where
  applied : Termios
deriving DecidableEq

/-- build_console_configuration (src/main.rs lines 79-107): reads the
terminal attributes of standard input with tcgetattr, clears ICRNL from
c_iflag and ICANON and ECHO from c_lflag, and applies the result with
tcsetattr.  The source binds the return value of both calls to an unused
variable r and never checks it: the modification and tcsetattr run
unconditionally, even when the read failed (in which case attrs is whatever
uninitialized data the buffer held).  tcOk records whether the read
succeeded; attrs is the buffer content after the tcgetattr call. -/
def build_console_configuration (tcOk : Bool) (attrs : Termios) :
    List Event × ConsoleConfig :=
  ([Event.tcgetattrEv tcOk, Event.tcsetattrEv, Event.createConsole],
   { applied := modifyAttributes attrs })

/-- The assembled machine configuration (src/main.rs lines 201-210). -/
structure MachineConfig where
  bootLoader : BootLoaderDescriptor
  cpuCount : Nat
  memorySize : Nat
  entropyDevices : Nat
  memoryBalloonDevices : Nat
  networkDevices : Nat
  serialPorts : List ConsoleConfig
  storageDevices : List BlockDevice

/-- The builder chain of src/main.rs lines 201-210: one entropy device, one
memory-balloon device, one network device, one console serial port, plus the
boot loader, CPU count, memory size and the storage device list. -/
def assembleConf (cfg : Config) (bl : BootLoaderDescriptor) (console : ConsoleConfig)
    (devs : List BlockDevice) : MachineConfig :=
  { bootLoader := bl
    cpuCount := cfg.cpu_count
    memorySize := cfg.memory_size
    entropyDevices := 1
    memoryBalloonDevices := 1
    networkDevices := 1
    serialPorts := [console]
    storageDevices := devs }

/-- How a run of main terminates. -/
inductive Outcome where
  | exited
  | panicked
  | loopsForever
deriving DecidableEq

/-- The external world of one run of main. -/
structure Env where
  configJson : Option Json
  supported : Bool
  canon : Path → Option Path
  attachFail : Path → Option NSError
  validateResult : MachineConfig → Option NSError
  startError : Option NSError
  tcgetattrOk : Bool
  readAttrs : Termios

/-- main (src/main.rs lines 162-246), as a trace of events plus an outcome:
load the config (expect panics on failure); check the capability (print
"not supported" and return cleanly if absent); create the entropy,
memory-balloon and network device configurations; build the boot loader
(panics if a path fails to canonicalize); build the block devices from
boot.disks followed by additional_disks (dump the error and return on a
returned error); build the console configuration; assemble; validate (dump
and return on rejection); otherwise create the VM, submit the asynchronous
start, dump any error the completion callback receives, and loop forever. -/
def mainRun (env : Env) : List Event × Outcome :=
  match load_config env.configJson with
  | Except.error _ => ([Event.readConfigFile], Outcome.panicked)
  | Except.ok cfg =>
    match env.supported with
    | false =>
      ([Event.readConfigFile, Event.checkSupported false, Event.printNotSupported],
       Outcome.exited)
    | true =>
      match build_boot_loader env.canon cfg.boot.kernel cfg.boot.initrd cfg.boot.command_line with
      | none =>
        ([Event.readConfigFile, Event.checkSupported true, Event.createEntropy,
          Event.createBalloon, Event.createNetwork], Outcome.panicked)
      | some bl =>
        match build_block_devices env.canon env.attachFail
            (cfg.boot.disks ++ cfg.additional_disks) with
        | BuildOutcome.panic =>
          ([Event.readConfigFile, Event.checkSupported true, Event.createEntropy,
            Event.createBalloon, Event.createNetwork, Event.buildBootLoaderEv],
           Outcome.panicked)
        | BuildOutcome.err _ =>
          ([Event.readConfigFile, Event.checkSupported true, Event.createEntropy,
            Event.createBalloon, Event.createNetwork, Event.buildBootLoaderEv,
            Event.dumpError], Outcome.exited)
        | BuildOutcome.ok devs =>
          match env.validateResult
              (assembleConf cfg bl
                (build_console_configuration env.tcgetattrOk env.readAttrs).2 devs) with
          | some _ =>
            ([Event.readConfigFile, Event.checkSupported true, Event.createEntropy,
              Event.createBalloon, Event.createNetwork, Event.buildBootLoaderEv,
              Event.storageBuilt devs.length] ++
             (build_console_configuration env.tcgetattrOk env.readAttrs).1 ++
             [Event.assembleEv, Event.validateEv false, Event.dumpError],
             Outcome.exited)
          | none =>
            match env.startError with
            | some _ =>
              ([Event.readConfigFile, Event.checkSupported true, Event.createEntropy,
                Event.createBalloon, Event.createNetwork, Event.buildBootLoaderEv,
                Event.storageBuilt devs.length] ++
               (build_console_configuration env.tcgetattrOk env.readAttrs).1 ++
               [Event.assembleEv, Event.validateEv true, Event.createVM,
                Event.startSubmit, Event.callbackDump],
               Outcome.loopsForever)
            | none =>
              ([Event.readConfigFile, Event.checkSupported true, Event.createEntropy,
                Event.createBalloon, Event.createNetwork, Event.buildBootLoaderEv,
                Event.storageBuilt devs.length] ++
               (build_console_configuration env.tcgetattrOk env.readAttrs).1 ++
               [Event.assembleEv, Event.validateEv true, Event.createVM,
                Event.startSubmit],
               Outcome.loopsForever)

/-- True exactly on validation events. -/
def isValidateEvent : Event → Bool
  | Event.validateEv _ => true
  | _ => false

/-- The keys of a JSON object field list. -/
def keysOf (fields : List (String × Json)) : List String := fields.map Prod.fst

/-- A well-formed configuration document with kernel and initrd only. -/
def jsonCfgOk : Json :=
  Json.obj [("boot", Json.obj [("kernel", Json.str "vmlinuz"), ("initrd", Json.str "initrd.img")])]

/-- The configuration value jsonCfgOk deserializes to. -/
def cfgOk : Config :=
  { boot := { kernel := { s := "vmlinuz" }, initrd := { s := "initrd.img" },
              command_line := "", disks := [] }
    cpu_count := 2
    additional_disks := []
    memory_size := 2147483648 }

/-- A benign environment: config loads, host supported, every path
canonicalizes to itself, every attachment builds, validation passes, the
start completes without error, the terminal read succeeds. -/
def envOk : Env :=
  { configJson := some jsonCfgOk
    supported := true
    canon := fun p => some p
    attachFail := fun _ => none
    validateResult := fun _ => none
    startError := none
    tcgetattrOk := true
    readAttrs := { c_iflag := 0, c_lflag := 0 } }

/-- Like envOk but the asynchronous start reports an error. -/
def envStartErr : Env := { envOk with startError := some { code := 5 } }

/-- Like envOk but no path canonicalizes (for example, none exists). -/
def envCanonFail : Env := { envOk with canon := fun _ => none }

/-- Like envOk but the host lacks the virtualization capability. -/
def envUnsupported : Env := { envOk with supported := false }

/-- Like envOk but reading the terminal attributes fails and the attribute
buffer holds arbitrary uninitialized data. -/
def envTcFail : Env :=
  { envOk with tcgetattrOk := false, readAttrs := { c_iflag := 511, c_lflag := 511 } }

/-- Like envOk but the validator rejects the configuration. -/
def envValidateFail : Env := { envOk with validateResult := fun _ => some { code := 7 } }

/-- A disk path used in counterexamples. -/
def disk0 : Path := { s := "disk.img" }

/-- A configuration declaring one boot disk and one additional disk. -/
def cfgDisks : Config :=
  { boot := { kernel := { s := "vmlinuz" }, initrd := { s := "initrd.img" },
              command_line := "", disks := [{ s := "a.img" }] }
    cpu_count := 2
    additional_disks := [{ s := "b.img" }]
    memory_size := 2147483648 }

/-! Masking with the same mask twice equals masking once. -/

theorem land_absorb (x m : Nat) : x &&& m &&& m = x &&& m := by
  apply Nat.eq_of_testBit_eq
  intro i
  simp [Nat.testBit_land, Bool.and_assoc]

/-- C8: the terminal adapter flag modification is idempotent: for any
initial terminal attribute words, clearing ICRNL from the input flags and
ICANON and ECHO from the local flags twice yields the same attribute state
as clearing them once. -/
theorem c8_flag_modification_idempotent (t : Termios) :
    modifyAttributes (modifyAttributes t) = modifyAttributes t := by
  cases t with
  | mk i l => simp [modifyAttributes, land_absorb]

theorem c8_flag_modification_idempotent_witness :
    modifyAttributes (modifyAttributes { c_iflag := 511, c_lflag := 511 }) =
      modifyAttributes { c_iflag := 511, c_lflag := 511 } :=
  c8_flag_modification_idempotent { c_iflag := 511, c_lflag := 511 }

/-! The storage builder succeeds on a list of resolvable, attachable paths,
producing one device per path in order. -/

theorem build_block_devices_total (canon : Path → Option Path)
    (attachFail : Path → Option NSError) :
    ∀ disks : List Path,
    (∀ d ∈ disks, ∃ cp, canon d = some cp ∧ attachFail cp = none) →
    ∃ devs, build_block_devices canon attachFail disks = BuildOutcome.ok devs ∧
      List.Forall₂
        (fun d dev => canon d = some dev.attachment.path ∧ dev.attachment.readOnly = false)
        disks devs := by
  intro disks
  induction disks with
  | nil => intro _; exact ⟨[], rfl, List.Forall₂.nil⟩
  | cons d rest ih =>
    intro h
    obtain ⟨cp, hc, ha⟩ := h d (List.mem_cons_self d rest)
    obtain ⟨devs, hb, hf⟩ := ih fun x hx => h x (List.mem_cons_of_mem d hx)
    refine ⟨{ attachment := { path := cp, readOnly := false } } :: devs, ?_, ?_⟩
    · simp [build_block_devices, hc, ha, hb]
    · exact List.Forall₂.cons ⟨hc, rfl⟩ hf

/-- C1: for every valid configuration (each declared disk path
canonicalizes and its attachment builds), the storage builder, applied as in
main to the entries of boot.disks followed by the entries of
additional_disks, returns Ok with exactly one storage device descriptor per
declared path, pointwise in declared order, hence exactly N devices for N
declared paths. -/
theorem c1_storage_one_device_per_path (canon : Path → Option Path)
    (attachFail : Path → Option NSError) (cfg : Config)
    (h : ∀ d ∈ cfg.boot.disks ++ cfg.additional_disks,
      ∃ cp, canon d = some cp ∧ attachFail cp = none) :
    ∃ devs,
      build_block_devices canon attachFail (cfg.boot.disks ++ cfg.additional_disks) =
        BuildOutcome.ok devs ∧
      List.Forall₂
        (fun d dev => canon d = some dev.attachment.path ∧ dev.attachment.readOnly = false)
        (cfg.boot.disks ++ cfg.additional_disks) devs ∧
      devs.length = cfg.boot.disks.length + cfg.additional_disks.length := by
  obtain ⟨devs, hb, hf⟩ := build_block_devices_total canon attachFail _ h
  exact ⟨devs, hb, hf, by rw [← hf.length_eq, List.length_append]⟩

theorem c1_storage_one_device_per_path_witness :
    ∃ devs,
      build_block_devices (fun p => some p) (fun _ => none)
        (cfgDisks.boot.disks ++ cfgDisks.additional_disks) = BuildOutcome.ok devs ∧
      List.Forall₂
        (fun d dev => (fun p => some p) d = some dev.attachment.path ∧
          dev.attachment.readOnly = false)
        (cfgDisks.boot.disks ++ cfgDisks.additional_disks) devs ∧
      devs.length = cfgDisks.boot.disks.length + cfgDisks.additional_disks.length :=
  c1_storage_one_device_per_path (fun p => some p) (fun _ => none) cfgDisks
    (fun d _ => ⟨d, rfl, rfl⟩)

/-! The storage builder short-circuits at the first failing path: a
canonicalize failure panics, an attachment failure returns that error; in
both cases the paths after the failing one are irrelevant. -/

theorem build_block_devices_panic_first (canon : Path → Option Path)
    (af : Path → Option NSError) :
    ∀ (pre : List Path) (d : Path) (rest : List Path),
    (∀ p ∈ pre, ∃ cp, canon p = some cp ∧ af cp = none) →
    canon d = none →
    build_block_devices canon af (pre ++ d :: rest) = BuildOutcome.panic := by
  intro pre
  induction pre with
  | nil => intro d rest _ hd; simp [build_block_devices, hd]
  | cons p pre ih =>
    intro d rest h hd
    obtain ⟨cp, hc, ha⟩ := h p (List.mem_cons_self p pre)
    have hrec := ih d rest (fun x hx => h x (List.mem_cons_of_mem p hx)) hd
    simp [build_block_devices, hc, ha, hrec]

theorem build_block_devices_err_first (canon : Path → Option Path)
    (af : Path → Option NSError) :
    ∀ (pre : List Path) (d : Path) (rest : List Path) (cp : Path) (e : NSError),
    (∀ p ∈ pre, ∃ cp2, canon p = some cp2 ∧ af cp2 = none) →
    canon d = some cp → af cp = some e →
    build_block_devices canon af (pre ++ d :: rest) = BuildOutcome.err e := by
  intro pre
  induction pre with
  | nil => intro d rest cp e _ hd ha; simp [build_block_devices, hd, ha]
  | cons p pre ih =>
    intro d rest cp e h hd ha
    obtain ⟨cp2, hc2, ha2⟩ := h p (List.mem_cons_self p pre)
    have hrec := ih d rest cp e (fun x hx => h x (List.mem_cons_of_mem p hx)) hd ha
    simp [build_block_devices, hc2, ha2, hrec]

/-- C3 counterexample: a disk path that does not canonicalize (a
non-existent file) makes the storage builder panic via unwrap; the builder
does not return an error value at all, so the claim that it returns with an
error referencing the failing path is false at this input. -/
theorem c3_counterexample :
    build_block_devices (fun _ => none) (fun _ => none) [disk0] = BuildOutcome.panic ∧
    (build_block_devices (fun _ => none) (fun _ => none) [disk0]).isErr = false :=
  ⟨rfl, rfl⟩

/-- C3 (amended): for a disk path that does not canonicalize, the storage
builder aborts fatally by panic (no Result is returned); for a path whose
attachment fails to construct, it returns immediately with the error of the
first failing path.  In both cases no partial device list is returned and
the result is independent of every later path in the sequence. -/
theorem c3_amended_first_failure :
    (∀ (canon : Path → Option Path) (af : Path → Option NSError)
        (pre : List Path) (d : Path) (rest : List Path),
      (∀ p ∈ pre, ∃ cp, canon p = some cp ∧ af cp = none) →
      canon d = none →
      build_block_devices canon af (pre ++ d :: rest) = BuildOutcome.panic) ∧
    (∀ (canon : Path → Option Path) (af : Path → Option NSError)
        (pre : List Path) (d : Path) (rest : List Path) (cp : Path) (e : NSError),
      (∀ p ∈ pre, ∃ cp2, canon p = some cp2 ∧ af cp2 = none) →
      canon d = some cp → af cp = some e →
      build_block_devices canon af (pre ++ d :: rest) = BuildOutcome.err e) :=
  ⟨build_block_devices_panic_first, build_block_devices_err_first⟩

theorem c3_amended_first_failure_witness :
    build_block_devices (fun _ => none) (fun _ => none)
      ([] ++ disk0 :: [{ s := "later.img" }]) = BuildOutcome.panic ∧
    build_block_devices (fun p => some p) (fun cp => if cp = disk0 then some { code := 3 } else none)
      ([] ++ disk0 :: [{ s := "later.img" }]) = BuildOutcome.err { code := 3 } :=
  ⟨c3_amended_first_failure.1 (fun _ => none) (fun _ => none) [] disk0 [{ s := "later.img" }]
      (fun p hp => absurd hp (List.not_mem_nil p)) rfl,
   c3_amended_first_failure.2 (fun p => some p)
      (fun cp => if cp = disk0 then some { code := 3 } else none)
      [] disk0 [{ s := "later.img" }] disk0 { code := 3 }
      (fun p hp => absurd hp (List.not_mem_nil p)) rfl (by decide)⟩

/-- C4 counterexample: with a well-formed configuration and a kernel path
that fails to canonicalize, the run panics, but the trace already contains
the creation of the entropy, memory-balloon and network device
configurations, which in the source precede the boot loader path
resolution; so the claim that startup aborts before any device is created
is false at this input. -/
theorem c4_counterexample :
    load_config envCanonFail.configJson = Except.ok cfgOk ∧
    envCanonFail.canon cfgOk.boot.kernel = none ∧
    (mainRun envCanonFail).2 = Outcome.panicked ∧
    Event.createEntropy ∈ (mainRun envCanonFail).1 ∧
    Event.createBalloon ∈ (mainRun envCanonFail).1 ∧
    Event.createNetwork ∈ (mainRun envCanonFail).1 :=
  ⟨rfl, rfl, rfl, by decide, by decide, by decide⟩

/-- C4 (amended): if canonicalization of the kernel path or the initrd path
fails, startup aborts fatally by panic before any storage device is built,
before the console is configured, and before validation or VM construction;
the entropy, memory-balloon and network device configurations, however,
have already been created at that point. -/
theorem c4_amended_abort_before_storage (env : Env) (cfg : Config)
    (hlc : load_config env.configJson = Except.ok cfg)
    (hs : env.supported = true)
    (hcanon : env.canon cfg.boot.kernel = none ∨ env.canon cfg.boot.initrd = none) :
    mainRun env =
      ([Event.readConfigFile, Event.checkSupported true, Event.createEntropy,
        Event.createBalloon, Event.createNetwork], Outcome.panicked) := by
  have hb : build_boot_loader env.canon cfg.boot.kernel cfg.boot.initrd
      cfg.boot.command_line = none := by
    rcases hcanon with h | h
    · simp [build_boot_loader, h]
    · cases hk : env.canon cfg.boot.kernel with
      | none => simp [build_boot_loader, hk]
      | some k => simp [build_boot_loader, hk, h]
  simp [mainRun, hlc, hs, hb]

theorem c4_amended_abort_before_storage_witness :
    mainRun envCanonFail =
      ([Event.readConfigFile, Event.checkSupported true, Event.createEntropy,
        Event.createBalloon, Event.createNetwork], Outcome.panicked) :=
  c4_amended_abort_before_storage envCanonFail cfgOk rfl rfl (Or.inl rfl)

/-- C5: whenever the run reaches the asynchronous start and the completion
callback carries an error value, the error is dumped but the process does
not exit: the run ends in the indefinite fixed-interval idle loop. -/
theorem c5_start_error_keeps_looping (env : Env) (e : NSError)
    (hse : env.startError = some e)
    (hstart : Event.startSubmit ∈ (mainRun env).1) :
    Event.callbackDump ∈ (mainRun env).1 ∧ (mainRun env).2 = Outcome.loopsForever := by
  cases hlc : load_config env.configJson with
  | error err => simp [mainRun, hlc] at hstart
  | ok cfg =>
    cases hs : env.supported with
    | false => simp [mainRun, hlc, hs] at hstart
    | true =>
      cases hb : build_boot_loader env.canon cfg.boot.kernel cfg.boot.initrd
          cfg.boot.command_line with
      | none => simp [mainRun, hlc, hs, hb] at hstart
      | some bl =>
        cases hbd : build_block_devices env.canon env.attachFail
            (cfg.boot.disks ++ cfg.additional_disks) with
        | panic => simp [mainRun, hlc, hs, hb, hbd] at hstart
        | err e2 => simp [mainRun, hlc, hs, hb, hbd] at hstart
        | ok devs =>
          cases hv : env.validateResult
              (assembleConf cfg bl
                (build_console_configuration env.tcgetattrOk env.readAttrs).2 devs) with
          | some e3 =>
            simp only [build_console_configuration] at hv
            simp [mainRun, hlc, hs, hb, hbd, hv, build_console_configuration] at hstart
          | none =>
            simp only [build_console_configuration] at hv
            constructor
            · simp [mainRun, hlc, hs, hb, hbd, hv, hse, build_console_configuration]
            · simp [mainRun, hlc, hs, hb, hbd, hv, hse, build_console_configuration]

theorem c5_start_error_keeps_looping_witness :
    Event.callbackDump ∈ (mainRun envStartErr).1 ∧
    (mainRun envStartErr).2 = Outcome.loopsForever :=
  c5_start_error_keeps_looping envStartErr { code := 5 } rfl (by decide)

/-- C2: validation gates VM construction.  In every run: if a VM is
created, the trace contains exactly one validation event and it is the
successful validation, placed immediately before the VM creation; and if
the validator rejects the configuration, the error is dumped, the process
exits, and no VM is ever constructed. -/
theorem c2_validation_gates_vm (env : Env) :
    (Event.createVM ∈ (mainRun env).1 →
      (mainRun env).1.countP isValidateEvent = 1 ∧
      ∃ pre post,
        (mainRun env).1 = pre ++ Event.validateEv true :: Event.createVM :: post) ∧
    (Event.validateEv false ∈ (mainRun env).1 →
      Event.dumpError ∈ (mainRun env).1 ∧ (mainRun env).2 = Outcome.exited ∧
      Event.createVM ∉ (mainRun env).1) := by
  cases hlc : load_config env.configJson with
  | error err =>
    constructor <;> intro hmem <;> simp [mainRun, hlc] at hmem
  | ok cfg =>
    cases hs : env.supported with
    | false => constructor <;> intro hmem <;> simp [mainRun, hlc, hs] at hmem
    | true =>
      cases hb : build_boot_loader env.canon cfg.boot.kernel cfg.boot.initrd
          cfg.boot.command_line with
      | none => constructor <;> intro hmem <;> simp [mainRun, hlc, hs, hb] at hmem
      | some bl =>
        cases hbd : build_block_devices env.canon env.attachFail
            (cfg.boot.disks ++ cfg.additional_disks) with
        | panic =>
          constructor <;> intro hmem <;> simp [mainRun, hlc, hs, hb, hbd] at hmem
        | err e2 =>
          constructor <;> intro hmem <;> simp [mainRun, hlc, hs, hb, hbd] at hmem
        | ok devs =>
          cases hv : env.validateResult
              (assembleConf cfg bl
                (build_console_configuration env.tcgetattrOk env.readAttrs).2 devs) with
          | some e3 =>
            simp only [build_console_configuration] at hv
            constructor
            · intro hmem
              simp [mainRun, hlc, hs, hb, hbd, hv, build_console_configuration] at hmem
            · intro hmem
              refine ⟨?_, ?_, ?_⟩ <;>
                simp [mainRun, hlc, hs, hb, hbd, hv, build_console_configuration]
          | none =>
            simp only [build_console_configuration] at hv
            cases hse : env.startError with
            | some e4 =>
              constructor
              · intro hmem
                constructor
                · simp [mainRun, hlc, hs, hb, hbd, hv, hse, build_console_configuration,
                    List.countP_cons, List.countP_nil, isValidateEvent]
                · refine ⟨[Event.readConfigFile, Event.checkSupported true,
                    Event.createEntropy, Event.createBalloon, Event.createNetwork,
                    Event.buildBootLoaderEv, Event.storageBuilt devs.length,
                    Event.tcgetattrEv env.tcgetattrOk, Event.tcsetattrEv,
                    Event.createConsole, Event.assembleEv],
                    [Event.startSubmit, Event.callbackDump], ?_⟩
                  simp [mainRun, hlc, hs, hb, hbd, hv, hse, build_console_configuration]
              · intro hmem
                simp [mainRun, hlc, hs, hb, hbd, hv, hse, build_console_configuration] at hmem
            | none =>
              constructor
              · intro hmem
                constructor
                · simp [mainRun, hlc, hs, hb, hbd, hv, hse, build_console_configuration,
                    List.countP_cons, List.countP_nil, isValidateEvent]
                · refine ⟨[Event.readConfigFile, Event.checkSupported true,
                    Event.createEntropy, Event.createBalloon, Event.createNetwork,
                    Event.buildBootLoaderEv, Event.storageBuilt devs.length,
                    Event.tcgetattrEv env.tcgetattrOk, Event.tcsetattrEv,
                    Event.createConsole, Event.assembleEv],
                    [Event.startSubmit], ?_⟩
                  simp [mainRun, hlc, hs, hb, hbd, hv, hse, build_console_configuration]
              · intro hmem
                simp [mainRun, hlc, hs, hb, hbd, hv, hse, build_console_configuration] at hmem

theorem c2_validation_gates_vm_witness :
    ((mainRun envOk).1.countP isValidateEvent = 1 ∧
      ∃ pre post,
        (mainRun envOk).1 = pre ++ Event.validateEv true :: Event.createVM :: post) ∧
    (Event.dumpError ∈ (mainRun envValidateFail).1 ∧
      (mainRun envValidateFail).2 = Outcome.exited ∧
      Event.createVM ∉ (mainRun envValidateFail).1) :=
  ⟨(c2_validation_gates_vm envOk).1 (by decide),
   (c2_validation_gates_vm envValidateFail).2 (by decide)⟩

/-- C6 counterexample: on a host lacking the virtualization capability the
run does print "not supported" and exits cleanly, but the very first event
of the trace is the opening and reading of the configuration file, which
happens before the capability check: a resource is touched, so the claim
that no resources are touched is false at this input. -/
theorem c6_counterexample :
    envUnsupported.supported = false ∧
    mainRun envUnsupported =
      ([Event.readConfigFile, Event.checkSupported false, Event.printNotSupported],
       Outcome.exited) ∧
    Event.readConfigFile ∈ (mainRun envUnsupported).1 :=
  ⟨rfl, rfl, by decide⟩

/-- C6 (amended): when the configuration file loads successfully and the
host lacks the virtualization capability, the process prints "not
supported" and exits cleanly with no device assembly, no validation and no
VM construction; the configuration file, however, has already been opened
and read before the capability check. -/
theorem c6_amended_unsupported_clean_exit (env : Env) (cfg : Config)
    (hlc : load_config env.configJson = Except.ok cfg)
    (hs : env.supported = false) :
    mainRun env =
      ([Event.readConfigFile, Event.checkSupported false, Event.printNotSupported],
       Outcome.exited) := by
  simp [mainRun, hlc, hs]

theorem c6_amended_unsupported_clean_exit_witness :
    mainRun envUnsupported =
      ([Event.readConfigFile, Event.checkSupported false, Event.printNotSupported],
       Outcome.exited) :=
  c6_amended_unsupported_clean_exit envUnsupported cfgOk rfl rfl

/-- C9: evaluation of the code at the failing input.  When tcgetattr fails
(for example standard input is not a terminal), the source ignores the
returned error: the adapter still modifies the uninitialized attribute
buffer and still calls tcsetattr, and the run proceeds non-fatally; the
claimed behavior (propagate the raw error as fatal, never modify or apply
after a failed read) does not happen. -/
theorem c9_failed_read_still_applies :
    (build_console_configuration false { c_iflag := 511, c_lflag := 511 }).1 =
      [Event.tcgetattrEv false, Event.tcsetattrEv, Event.createConsole] ∧
    Event.tcsetattrEv ∈ (mainRun envTcFail).1 ∧
    (mainRun envTcFail).2 = Outcome.loopsForever :=
  ⟨rfl, by decide, rfl⟩

/-! Field-visitor lemmas for the strict serde deserialization of Boot. -/

theorem applyBootField_keeps_kernel (k : String) (v : Json) (acc acc2 : BootAcc)
    (hk : ¬ k = "kernel") (h : applyBootField k v acc = Except.ok acc2) :
    acc2.kernel = acc.kernel := by
  unfold applyBootField at h
  repeat' split at h
  all_goals first
    | (cases h <;> rfl)
    | (exact absurd (by assumption) hk)

theorem applyBootField_keeps_initrd (k : String) (v : Json) (acc acc2 : BootAcc)
    (hk : ¬ k = "initrd") (h : applyBootField k v acc = Except.ok acc2) :
    acc2.initrd = acc.initrd := by
  unfold applyBootField at h
  repeat' split at h
  all_goals first
    | (cases h <;> rfl)
    | (exact absurd (by assumption) hk)

theorem applyBootField_keeps_cmdline (k : String) (v : Json) (acc acc2 : BootAcc)
    (hk : ¬ k = "command_line") (h : applyBootField k v acc = Except.ok acc2) :
    acc2.command_line = acc.command_line := by
  unfold applyBootField at h
  repeat' split at h
  all_goals first
    | (cases h <;> rfl)
    | (exact absurd (by assumption) hk)

theorem applyBootField_unknown_err (k : String) (v : Json) (acc : BootAcc)
    (h1 : ¬ k = "kernel") (h2 : ¬ k = "initrd") (h3 : ¬ k = "command_line")
    (h4 : ¬ k = "disks") :
    applyBootField k v acc = Except.error ("unknown field " ++ k) := by
  unfold applyBootField
  rw [if_neg h1, if_neg h2, if_neg h3, if_neg h4]

theorem parseBootFields_keeps_kernel :
    ∀ (fields : List (String × Json)) (acc acc2 : BootAcc),
    "kernel" ∉ keysOf fields →
    parseBootFields fields acc = Except.ok acc2 → acc2.kernel = acc.kernel := by
  intro fields
  induction fields with
  | nil =>
    intro acc acc2 _ h
    simp only [parseBootFields] at h
    cases h
    rfl
  | cons kv rest ih =>
    intro acc acc2 hmem h
    obtain ⟨kk, vv⟩ := kv
    simp only [keysOf, List.map_cons, List.mem_cons, not_or] at hmem
    cases ha : applyBootField kk vv acc with
    | error e => simp [parseBootFields, ha] at h
    | ok acc1 =>
      have hmid := applyBootField_keeps_kernel kk vv acc acc1
        (fun hh => hmem.1 hh.symm) ha
      have htail := ih acc1 acc2 hmem.2 (by simpa [parseBootFields, ha] using h)
      rw [htail, hmid]

theorem parseBootFields_keeps_initrd :
    ∀ (fields : List (String × Json)) (acc acc2 : BootAcc),
    "initrd" ∉ keysOf fields →
    parseBootFields fields acc = Except.ok acc2 → acc2.initrd = acc.initrd := by
  intro fields
  induction fields with
  | nil =>
    intro acc acc2 _ h
    simp only [parseBootFields] at h
    cases h
    rfl
  | cons kv rest ih =>
    intro acc acc2 hmem h
    obtain ⟨kk, vv⟩ := kv
    simp only [keysOf, List.map_cons, List.mem_cons, not_or] at hmem
    cases ha : applyBootField kk vv acc with
    | error e => simp [parseBootFields, ha] at h
    | ok acc1 =>
      have hmid := applyBootField_keeps_initrd kk vv acc acc1
        (fun hh => hmem.1 hh.symm) ha
      have htail := ih acc1 acc2 hmem.2 (by simpa [parseBootFields, ha] using h)
      rw [htail, hmid]

theorem parseBootFields_keeps_cmdline :
    ∀ (fields : List (String × Json)) (acc acc2 : BootAcc),
    "command_line" ∉ keysOf fields →
    parseBootFields fields acc = Except.ok acc2 → acc2.command_line = acc.command_line := by
  intro fields
  induction fields with
  | nil =>
    intro acc acc2 _ h
    simp only [parseBootFields] at h
    cases h
    rfl
  | cons kv rest ih =>
    intro acc acc2 hmem h
    obtain ⟨kk, vv⟩ := kv
    simp only [keysOf, List.map_cons, List.mem_cons, not_or] at hmem
    cases ha : applyBootField kk vv acc with
    | error e => simp [parseBootFields, ha] at h
    | ok acc1 =>
      have hmid := applyBootField_keeps_cmdline kk vv acc acc1
        (fun hh => hmem.1 hh.symm) ha
      have htail := ih acc1 acc2 hmem.2 (by simpa [parseBootFields, ha] using h)
      rw [htail, hmid]

theorem parseBootFields_unknown_err :
    ∀ (fields : List (String × Json)) (acc : BootAcc),
    (∃ k ∈ keysOf fields, isKnownBootKey k = false) →
    ∃ e, parseBootFields fields acc = Except.error e := by
  intro fields
  induction fields with
  | nil =>
    intro acc h
    obtain ⟨k, hk, _⟩ := h
    simp [keysOf] at hk
  | cons kv rest ih =>
    intro acc h
    obtain ⟨kk, vv⟩ := kv
    obtain ⟨k, hkmem, hunk⟩ := h
    simp only [keysOf, List.map_cons, List.mem_cons] at hkmem
    cases hkmem with
    | inl hEq =>
      subst hEq
      have hnot := of_decide_eq_false hunk
      push_neg at hnot
      refine ⟨"unknown field " ++ k, ?_⟩
      simp [parseBootFields,
        applyBootField_unknown_err k vv acc hnot.1 hnot.2.1 hnot.2.2.1 hnot.2.2.2]
    | inr hrest =>
      cases ha : applyBootField kk vv acc with
      | error e => exact ⟨e, by simp [parseBootFields, ha]⟩
      | ok acc1 =>
        obtain ⟨e, he⟩ := ih acc1 ⟨k, hrest, hunk⟩
        exact ⟨e, by simp [parseBootFields, ha, he]⟩

/-! Field-visitor lemmas for the strict serde deserialization of Config. -/

theorem applyConfigField_keeps_boot (k : String) (v : Json) (acc acc2 : ConfigAcc)
    (hk : ¬ k = "boot") (h : applyConfigField k v acc = Except.ok acc2) :
    acc2.boot = acc.boot := by
  unfold applyConfigField at h
  repeat' split at h
  all_goals first
    | (cases h <;> rfl)
    | (exact absurd (by assumption) hk)

theorem applyConfigField_unknown_err (k : String) (v : Json) (acc : ConfigAcc)
    (h1 : ¬ k = "boot") (h2 : ¬ k = "cpu_count") (h3 : ¬ k = "additional_disks")
    (h4 : ¬ k = "memory_size") :
    applyConfigField k v acc = Except.error ("unknown field " ++ k) := by
  unfold applyConfigField
  rw [if_neg h1, if_neg h2, if_neg h3, if_neg h4]

theorem parseConfigFields_unknown_err :
    ∀ (fields : List (String × Json)) (acc : ConfigAcc),
    (∃ k ∈ keysOf fields, isKnownConfigKey k = false) →
    ∃ e, parseConfigFields fields acc = Except.error e := by
  intro fields
  induction fields with
  | nil =>
    intro acc h
    obtain ⟨k, hk, _⟩ := h
    simp [keysOf] at hk
  | cons kv rest ih =>
    intro acc h
    obtain ⟨kk, vv⟩ := kv
    obtain ⟨k, hkmem, hunk⟩ := h
    simp only [keysOf, List.map_cons, List.mem_cons] at hkmem
    cases hkmem with
    | inl hEq =>
      subst hEq
      have hnot := of_decide_eq_false hunk
      push_neg at hnot
      refine ⟨"unknown field " ++ k, ?_⟩
      simp [parseConfigFields,
        applyConfigField_unknown_err k vv acc hnot.1 hnot.2.1 hnot.2.2.1 hnot.2.2.2]
    | inr hrest =>
      cases ha : applyConfigField kk vv acc with
      | error e => exact ⟨e, by simp [parseConfigFields, ha]⟩
      | ok acc1 =>
        obtain ⟨e, he⟩ := ih acc1 ⟨k, hrest, hunk⟩
        exact ⟨e, by simp [parseConfigFields, ha, he]⟩

theorem parseConfigFields_boot_none :
    ∀ (fields : List (String × Json)) (acc : ConfigAcc),
    acc.boot = none →
    (∀ bj, ("boot", bj) ∈ fields → isOkE (parseBoot bj) = false) →
    (∃ e, parseConfigFields fields acc = Except.error e) ∨
    (∃ acc2, parseConfigFields fields acc = Except.ok acc2 ∧ acc2.boot = none) := by
  intro fields
  induction fields with
  | nil => intro acc hb _; exact Or.inr ⟨acc, rfl, hb⟩
  | cons kv rest ih =>
    intro acc hb h
    obtain ⟨kk, vv⟩ := kv
    by_cases hkk : kk = "boot"
    · subst hkk
      have hfail : isOkE (parseBoot vv) = false := h vv (List.mem_cons_self _ _)
      cases hpb : parseBoot vv with
      | ok b => rw [hpb] at hfail; simp [isOkE] at hfail
      | error e =>
        refine Or.inl ⟨e, ?_⟩
        simp [parseConfigFields, applyConfigField, hb, hpb]
    · cases ha : applyConfigField kk vv acc with
      | error e => exact Or.inl ⟨e, by simp [parseConfigFields, ha]⟩
      | ok acc1 =>
        have hkeep := applyConfigField_keeps_boot kk vv acc acc1 hkk ha
        rcases ih acc1 (hkeep.trans hb) (fun bj hm => h bj (List.mem_cons_of_mem _ hm)) with
          ⟨e, he⟩ | ⟨acc2, he, hb2⟩
        · exact Or.inl ⟨e, by simp [parseConfigFields, ha, he]⟩
        · exact Or.inr ⟨acc2, by simp [parseConfigFields, ha, he], hb2⟩

/-- A configuration document with an unrecognized top-level field. -/
def envBadConfig : Env :=
  { envOk with configJson := some (Json.obj [("bogus", Json.null)]) }

/-- C7: config loading is strict.  A Boot object missing the kernel or the
initrd key fails to deserialize; a Boot object with an unrecognized key
fails; a Config object with an unrecognized key fails; a Config object
whose boot entries all fail to deserialize (in particular one whose boot
object is missing a required field or carries an unrecognized field) fails;
and whenever config loading fails, the run stops at the config read
(expect panics): no device is constructed. -/
theorem c7_strict_config_loading :
    (∀ fields : List (String × Json),
      "kernel" ∉ keysOf fields ∨ "initrd" ∉ keysOf fields →
      isOkE (parseBoot (Json.obj fields)) = false) ∧
    (∀ fields : List (String × Json),
      (∃ k ∈ keysOf fields, isKnownBootKey k = false) →
      isOkE (parseBoot (Json.obj fields)) = false) ∧
    (∀ fields : List (String × Json),
      (∃ k ∈ keysOf fields, isKnownConfigKey k = false) →
      isOkE (parseConfig (Json.obj fields)) = false) ∧
    (∀ fields : List (String × Json),
      (∀ bj, ("boot", bj) ∈ fields → isOkE (parseBoot bj) = false) →
      isOkE (parseConfig (Json.obj fields)) = false) ∧
    (∀ (env : Env) (j : Json), env.configJson = some j →
      isOkE (parseConfig j) = false →
      mainRun env = ([Event.readConfigFile], Outcome.panicked)) := by
  refine ⟨?_, ?_, ?_, ?_, ?_⟩
  · intro fields h
    cases hp : parseBootFields fields {} with
    | error e => simp [parseBoot, hp, isOkE]
    | ok acc =>
      rcases h with h | h
      · have hk : acc.kernel = none :=
          (parseBootFields_keeps_kernel fields {} acc h hp).trans rfl
        simp [parseBoot, hp, hk, isOkE]
      · have hi : acc.initrd = none :=
          (parseBootFields_keeps_initrd fields {} acc h hp).trans rfl
        cases hk : acc.kernel with
        | none => simp [parseBoot, hp, hk, isOkE]
        | some kern => simp [parseBoot, hp, hk, hi, isOkE]
  · intro fields h
    obtain ⟨e, he⟩ := parseBootFields_unknown_err fields {} h
    simp [parseBoot, he, isOkE]
  · intro fields h
    obtain ⟨e, he⟩ := parseConfigFields_unknown_err fields {} h
    simp [parseConfig, he, isOkE]
  · intro fields h
    rcases parseConfigFields_boot_none fields {} rfl h with ⟨e, he⟩ | ⟨acc2, he, hb2⟩
    · simp [parseConfig, he, isOkE]
    · simp [parseConfig, he, hb2, isOkE]
  · intro env j hcj hfail
    cases hp : parseConfig j with
    | ok cfg => rw [hp] at hfail; simp [isOkE] at hfail
    | error e =>
      have hlc : load_config env.configJson = Except.error e := by
        simp [load_config, hcj, hp]
      simp [mainRun, hlc]

theorem c7_strict_config_loading_witness :
    isOkE (parseBoot (Json.obj [("initrd", Json.str "initrd.img")])) = false ∧
    isOkE (parseBoot (Json.obj [("kernel", Json.str "vmlinuz"), ("extra", Json.null)])) = false ∧
    isOkE (parseConfig (Json.obj [("bogus", Json.null)])) = false ∧
    isOkE (parseConfig (Json.obj [("boot", Json.obj [("initrd", Json.str "initrd.img")])])) = false ∧
    mainRun envBadConfig = ([Event.readConfigFile], Outcome.panicked) := by
  refine ⟨?_, ?_, ?_, ?_, ?_⟩
  · exact c7_strict_config_loading.1 _ (Or.inl (by decide))
  · exact c7_strict_config_loading.2.1 _ ⟨"extra", by decide, by decide⟩
  · exact c7_strict_config_loading.2.2.1 _ ⟨"bogus", by decide, by decide⟩
  · refine c7_strict_config_loading.2.2.2.1 _ ?_
    intro bj hm
    simp only [List.mem_singleton, Prod.mk.injEq] at hm
    rw [hm.2]
    decide
  · exact c7_strict_config_loading.2.2.2.2 envBadConfig _ rfl (by decide)

/-- The Boot value obtained from a document that omits command_line. -/
def bootW : Boot :=
  { kernel := { s := "vmlinuz" }, initrd := { s := "initrd.img" },
    command_line := "", disks := [] }

/-- C10: a Boot object that omits the command_line key deserializes with
the empty command line (serde default for String), not "console=hvc0"; and
the boot loader builder passes the command line through verbatim into the
descriptor. -/
theorem c10_omitted_command_line_empty :
    (∀ (fields : List (String × Json)) (b : Boot),
      "command_line" ∉ keysOf fields →
      parseBoot (Json.obj fields) = Except.ok b →
      b.command_line = "" ∧ ¬ b.command_line = "console=hvc0") ∧
    (∀ (canon : Path → Option Path) (kernel initrd : Path) (cl : String)
        (bl : BootLoaderDescriptor),
      build_boot_loader canon kernel initrd cl = some bl →
      bl.commandLine = cl) := by
  constructor
  · intro fields b hmem hp
    cases hpf : parseBootFields fields {} with
    | error e => simp [parseBoot, hpf] at hp
    | ok acc =>
      have hcl : acc.command_line = none :=
        (parseBootFields_keeps_cmdline fields {} acc hmem hpf).trans rfl
      cases hk : acc.kernel with
      | none => simp [parseBoot, hpf, hk] at hp
      | some kern =>
        cases hi : acc.initrd with
        | none => simp [parseBoot, hpf, hk, hi] at hp
        | some ini =>
          simp only [parseBoot, hpf, hk, hi] at hp
          cases hp
          simp [hcl]
  · intro canon kernel initrd cl bl h
    unfold build_boot_loader at h
    cases hk : canon kernel with
    | none => rw [hk] at h; cases h
    | some k =>
      rw [hk] at h
      cases hi : canon initrd with
      | none => rw [hi] at h; cases h
      | some i => rw [hi] at h; cases h; rfl

theorem c10_omitted_command_line_empty_witness :
    (bootW.command_line = "" ∧ ¬ bootW.command_line = "console=hvc0") ∧
    ({ kernelUrl := { s := "vmlinuz" }, initrdUrl := { s := "initrd.img" },
       commandLine := "" } : BootLoaderDescriptor).commandLine = "" :=
  ⟨c10_omitted_command_line_empty.1
      [("kernel", Json.str "vmlinuz"), ("initrd", Json.str "initrd.img")] bootW
      (by decide) rfl,
   c10_omitted_command_line_empty.2 (fun p => some p)
      { s := "vmlinuz" } { s := "initrd.img" } "" _ rfl⟩

end SimpleVm
